import Mathlib

/-!
Shallow embedding of the `clock::v2` GCLK and DPLL modules of the atsamd HAL
(`hal/src/thumbv7em/clock/v2/gclk.rs` and `dpll.rs`).

Machine integers (`u8`, `u16`, `u32`) are modelled as `Nat`; a reduction
modulo `2 ^ w` appears exactly where the Rust code can overflow or masks a
field.  Type-level states (the `Count` reference counter, the `NotGen0` and
`NotGen1` bounds) are modelled as data: the reference count becomes a `Nat`
field and an operation that does not exist for a given type-state becomes an
`Option`-valued function returning `none` there.  Hardware register traffic is
modelled explicitly, either as a record of the GENCTRL fields or as a list of
register effects.
-/

namespace Atsamd

/-- Division factors for every generator except generator 1
(`GclkDiv` in gclk.rs).  `Div n` carries a `u8` value. -/
inductive GclkDiv where
  | Div (n : Nat)
  | Div2Pow8
  | Div2Pow9
deriving DecidableEq

/-- Division factors for generator 1 (`Gclk1Div` in gclk.rs).
`Div n` carries a `u16` value. -/
inductive Gclk1Div where
  | Div (n : Nat)
  | Div2Pow16
  | Div2Pow17
deriving DecidableEq

/-- Embeds `GclkDividerT::as_u32` for `GclkDiv`. -/
def GclkDiv.as_u32 : GclkDiv → Nat
  | .Div n => n
  | .Div2Pow8 => 256
  | .Div2Pow9 => 512

/-- Embeds `GclkDividerT::as_u32` for `Gclk1Div`. -/
def Gclk1Div.as_u32 : Gclk1Div → Nat
  | .Div n => n
  | .Div2Pow16 => 65536
  | .Div2Pow17 => 131072

/-- The two values of the GENCTRL `DIVSEL` field. -/
inductive Divsel where
  | div1
  | div2
deriving DecidableEq

/-- One GENCTRL register of the GCLK peripheral, restricted to the fields
this development touches (`SRC`, `DIVSEL`, `DIV`, `IDC`, `GENEN`, `OE`,
`OOV`). -/
structure Genctrl where
  src : Nat
  divsel : Divsel
  divField : Nat
  idc : Bool
  genen : Bool
  oe : Bool
  oov : Bool
deriving DecidableEq

/-- The `DIVSEL`/`DIV` pair written by one `Registers::set_div` call. -/
structure DivFieldWrite where
  divsel : Divsel
  div : Nat
deriving DecidableEq

/-- Register effects emitted by the GCLK register interface (`Registers`). -/
inductive GclkRegOp where
  | genctrlDiv (gen : Nat) (w : DivFieldWrite)
  | genctrlSrc (gen : Nat) (src : Nat)
  | waitSyncbusyGenctrl (mask : Nat)
deriving DecidableEq

/-- Embeds `Registers::<Gen1>::set_div` field write (gclk.rs, lines 42-73):
`Div(div)` selects `DIV1` mode and writes `div`; `Div2Pow16` selects `DIV2`
and writes 15; `Div2Pow17` selects `DIV2` and writes 16. -/
def setDivGen1 : Gclk1Div → DivFieldWrite
  | .Div n => ⟨.div1, n⟩
  | .Div2Pow16 => ⟨.div2, 15⟩
  | .Div2Pow17 => ⟨.div2, 16⟩

/-- Embeds `Registers::<G: NotGen1>::set_div` field write (gclk.rs, lines 75-106):
`Div(div)` selects `DIV1` mode and writes `div`; `Div2Pow8` selects `DIV2`
and writes 7; `Div2Pow9` selects `DIV2` and writes 8. -/
def setDivNotGen1 : GclkDiv → DivFieldWrite
  | .Div n => ⟨.div1, n⟩
  | .Div2Pow8 => ⟨.div2, 7⟩
  | .Div2Pow9 => ⟨.div2, 8⟩

/-- Embeds `Registers::mask`: `1 << G::NUM`, the SYNCBUSY.GENCTRL bit of unit
`G::NUM`. -/
def syncbusyMask (gen : Nat) : Nat := 1 <<< gen

/-- Effect trace of `Registers::<Gen1>::set_div`: the GENCTRL write followed
by `wait_syncbusy` on this unit's GENCTRL synchronization bit. -/
def setDivOpsGen1 (d : Gclk1Div) : List GclkRegOp :=
  [.genctrlDiv 1 (setDivGen1 d), .waitSyncbusyGenctrl (syncbusyMask 1)]

/-- Effect trace of `Registers::<G: NotGen1>::set_div`. -/
def setDivOpsNotGen1 (gen : Nat) (d : GclkDiv) : List GclkRegOp :=
  [.genctrlDiv gen (setDivNotGen1 d), .waitSyncbusyGenctrl (syncbusyMask gen)]

/-- Effect of a `set_div` write on the GENCTRL register fields. -/
def Genctrl.applyDiv (r : Genctrl) (w : DivFieldWrite) : Genctrl :=
  { r with divsel := w.divsel, divField := w.div }

/-- Embeds `Registers::set_source`: modifies only the `SRC` field. -/
def Genctrl.applySrc (r : Genctrl) (s : Nat) : Genctrl := { r with src := s }

/-- Embeds `Registers::enable`: sets the `GENEN` bit. -/
def Genctrl.applyEnable (r : Genctrl) : Genctrl := { r with genen := true }

/-- Embeds `Registers::disable`: clears the `GENEN` bit. -/
def Genctrl.applyDisable (r : Genctrl) : Genctrl := { r with genen := false }

/-- Embeds `GclkConfig` (gclk.rs, lines 393-406).  The token carries no data beyond
the generator index `gen`; the type parameter `T: GclkSourceType` is its
source-select identity `srcId`; `srcFreq` is the `freq` field (the source
frequency in Hz); `div` is the stored `u32` division factor. -/
structure GclkConfig where
  gen : Nat
  srcId : Nat
  srcFreq : Nat
  div : Nat
deriving DecidableEq

/-- Embeds `GclkConfig::freq` (gclk.rs, lines 533-540): a stored division factor of
0 is explicitly treated as no division. -/
def GclkConfig.freq (c : GclkConfig) : Nat :=
  match c.div with
  | 0 => c.srcFreq
  | _ => c.srcFreq / c.div

/-- Embeds `GclkConfig::div` for `G: NotGen1` (gclk.rs, lines 474-488): stores
`div.as_u32()`. -/
def GclkConfig.setDiv (c : GclkConfig) (d : GclkDiv) : GclkConfig :=
  { c with div := d.as_u32 }

/-- Embeds `GclkConfig::div` for `Gen1` (gclk.rs, lines 459-472): stores
`div.as_u32()`. -/
def GclkConfig.setDiv1 (c : GclkConfig) (d : Gclk1Div) : GclkConfig :=
  { c with div := d.as_u32 }

/-- Modelled from the spec: the `Source` capability with its `Lockable` /
`Unlockable` reference counter (`crate::typelevel`, not part of the sources
here).  Per the spec a source exposes a stable identity and current
frequency, and carries a non-negative reference count incremented by `lock`
and decremented by `unlock`. -/
structure SourceM where
  id : Nat
  freq : Nat
  count : Nat
deriving DecidableEq

/-- Modelled from the spec: `Lockable::lock` increments the reference count
by exactly one. -/
def SourceM.lock (s : SourceM) : SourceM := { s with count := s.count + 1 }

/-- Modelled from the spec: `Unlockable::unlock` decrements the reference
count by exactly one; it does not exist (no `Decrement` instance) at count
zero. -/
def SourceM.unlock (s : SourceM) : Option SourceM :=
  if 0 < s.count then some { s with count := s.count - 1 } else none

/-- Embeds `GclkConfig::new` (gclk.rs, lines 427-441): reads the source frequency,
initializes the stored divider to 1, writes the source-select field of this
unit's GENCTRL register, and locks the source. -/
def GclkConfig.new (gen : Nat) (s : SourceM) (r : Genctrl) :
    GclkConfig × SourceM × Genctrl :=
  (⟨gen, s.id, s.freq, 1⟩, s.lock, r.applySrc s.id)

/-- Embeds `GclkConfig::free` (gclk.rs, lines 451-456): returns the token (the bare
generator index) and unlocks the source. -/
def GclkConfig.free (c : GclkConfig) (s : SourceM) : Option (Nat × SourceM) :=
  match s.unlock with
  | some s2 => some (c.gen, s2)
  | none => none

/-- Embeds `GclkConfig::swap` (gclk.rs, lines 500-512): `free` with the old source,
then `GclkConfig::new` with the returned token and the new source. -/
def GclkConfig.swap (c : GclkConfig) (sold snew : SourceM) (r : Genctrl) :
    Option (GclkConfig × SourceM × SourceM × Genctrl) :=
  match c.free sold with
  | none => none
  | some (token, o) =>
    match GclkConfig.new token snew r with
    | (c2, n, r2) => some (c2, o, n, r2)

/-- Embeds `Gclk` (gclk.rs, lines 558-566): a frozen `GclkConfig` plus the
type-level reference count `N: Count`, modelled as a `Nat`. -/
structure Gclk where
  config : GclkConfig
  count : Nat
deriving DecidableEq

/-- Embeds `GclkConfig::enable` (gclk.rs, lines 542-548): produces a `Gclk` with
reference count zero.  (The matching register effect is
`Genctrl.applyEnable`.) -/
def GclkConfig.enable (c : GclkConfig) : Gclk := ⟨c, 0⟩

/-- Embeds `Gclk::disable` (gclk.rs, lines 576-587): defined only for `G: NotGen0`
and only at reference count `Zero`; returns the inner config.  (The matching
register effect is `Genctrl.applyDisable`.) -/
def Gclk.disable (g : Gclk) : Option GclkConfig :=
  if g.config.gen ≠ 0 ∧ g.count = 0 then some g.config else none

/-- Embeds `Lockable::lock` for `Gclk` (gclk.rs, lines 687-697): same config,
reference count incremented. -/
def Gclk.lock (g : Gclk) : Gclk := ⟨g.config, g.count + 1⟩

/-- Embeds `Unlockable::unlock` for `Gclk` (gclk.rs, lines 703-713): same config,
reference count decremented; `Decrement` exists only for nonzero counts. -/
def Gclk.unlock (g : Gclk) : Option Gclk :=
  if 0 < g.count then some ⟨g.config, g.count - 1⟩ else none

/-- The safe-API operations on one GCLK generator unit. -/
inductive GclkOp where
  | enable
  | disable
  | lock
  | unlock
  | setDiv (d : Nat)
  | improveDuty (b : Bool)
  | enableOut (pol : Bool)
  | disableOut
deriving DecidableEq

/-- The two type-states of one GCLK generator unit: `GclkConfig` or active
`Gclk`. -/
inductive GclkState where
  | config (c : GclkConfig)
  | active (g : Gclk)
deriving DecidableEq

/-- Generator index of a state. -/
def GclkState.gen : GclkState → Nat
  | .config c => c.gen
  | .active g => g.config.gen

/-- Small-step semantics of the safe API: each transition mirrors the
signature of the corresponding method in gclk.rs (an operation that does not
typecheck in a given state is `none`).  `setDiv` and `improveDuty` exist on
the config only; `lock`, `unlock`, `disable` and the output-pin toggles exist
on the active node only. -/
def step : GclkState → GclkOp → Option GclkState
  | .config c, .enable => some (.active c.enable)
  | .config c, .setDiv d => some (.config { c with div := d })
  | .config c, .improveDuty _ => some (.config c)
  | .active g, .lock => some (.active g.lock)
  | .active g, .unlock => Option.map .active g.unlock
  | .active g, .disable => Option.map .config g.disable
  | .active g, .enableOut _ => some (.active g)
  | .active g, .disableOut => some (.active g)
  | _, _ => none

/-- Iterated `step` over a list of operations. -/
def run : GclkState → List GclkOp → Option GclkState
  | s, [] => some s
  | s, op :: ops =>
    match step s op with
    | none => none
    | some s2 => run s2 ops

/-- Embeds `DynDpllSourceId` (dpll.rs, lines 98-107). -/
inductive DynDpllSourceId where
  | Pclk
  | Xosc0
  | Xosc1
  | Xosc32k
deriving DecidableEq

/-- Embeds `Dpll` (dpll.rs, lines 313-327).  The type parameters `D: DpllId` and
`I: DpllSourceId` are represented by the value-level `source` variant; the
`u16`, `u8` and `u32` fields become `Nat`. -/
structure Dpll where
  source : DynDpllSourceId
  src_freq : Nat
  mult : Nat
  frac : Nat
  lock_bypass : Bool
  wake_up_fast : Bool
  on_demand : Bool
  prediv : Nat
deriving DecidableEq

/-- Embeds `Dpll::from_pclk` (dpll.rs, lines 339-353): ratio 1 + 0/32, prediv 1. -/
def Dpll.from_pclk (f : Nat) : Dpll :=
  ⟨.Pclk, f, 1, 0, false, false, true, 1⟩

/-- Embeds `Dpll::from_xosc0` (dpll.rs, lines 403-436): ratio 1 + 0/32, prediv 2. -/
def Dpll.from_xosc0 (f : Nat) : Dpll :=
  ⟨.Xosc0, f, 1, 0, false, false, true, 2⟩

/-- Embeds `Dpll::from_xosc1` (dpll.rs, lines 403-436): ratio 1 + 0/32, prediv 2. -/
def Dpll.from_xosc1 (f : Nat) : Dpll :=
  ⟨.Xosc1, f, 1, 0, false, false, true, 2⟩

/-- Embeds `Dpll::from_xosc32k` (dpll.rs, lines 362-390): ratio 1 + 0/32,
prediv 1. -/
def Dpll.from_xosc32k (f : Nat) : Dpll :=
  ⟨.Xosc32k, f, 1, 0, false, false, true, 1⟩

/-- Embeds `Dpll::set_prediv` (dpll.rs, lines 438-446): the Rust code panics (here
`none`) when `prediv < 2 || prediv > 4096 || prediv % 2 != 0`. -/
def Dpll.set_prediv (d : Dpll) (p : Nat) : Option Dpll :=
  if p < 2 ∨ 4096 < p ∨ p % 2 ≠ 0 then none else some { d with prediv := p }

/-- Embeds `Dpll::set_loop_div` (dpll.rs, lines 493-498). -/
def Dpll.set_loop_div (d : Dpll) (int frac : Nat) : Dpll :=
  { d with mult := int, frac := frac }

/-- Embeds `Dpll::set_lock_bypass` (dpll.rs, lines 502-506). -/
def Dpll.set_lock_bypass (d : Dpll) (b : Bool) : Dpll := { d with lock_bypass := b }

/-- Embeds `Dpll::set_wake_up_fast` (dpll.rs, lines 509-513). -/
def Dpll.set_wake_up_fast (d : Dpll) (b : Bool) : Dpll := { d with wake_up_fast := b }

/-- Embeds `Dpll::set_on_demand` (dpll.rs, lines 515-519). -/
def Dpll.set_on_demand (d : Dpll) (b : Bool) : Dpll := { d with on_demand := b }

/-- Embeds `Dpll::input_freq` (dpll.rs, lines 521-524): `src_freq / prediv` in u32
arithmetic (exact; `prediv` is never 0 through the public API). -/
def Dpll.input_freq (d : Dpll) : Nat := d.src_freq / d.prediv

/-- Embeds `Dpll::output_freq` (dpll.rs, lines 526-529):
`input_freq() * (mult as u32 + frac as u32 / 32)` where `frac / 32`
truncates and the `u32` product wraps modulo `2 ^ 32` (release-mode Rust
semantics). -/
def Dpll.output_freq (d : Dpll) : Nat :=
  (d.input_freq * (d.mult + d.frac / 32)) % 2 ^ 32

/-- Embeds `Dpll::freq` (dpll.rs, lines 531-535). -/
def Dpll.freq (d : Dpll) : Nat := d.output_freq

/-- Register effects emitted by the DPLL register interface (`DpllToken`). -/
inductive DpllRegOp where
  | setSourceClock (s : DynDpllSourceId)
  | setSourceDiv (v : Nat)
  | setLoopDiv (ldr ldrfrac : Nat)
  | waitSyncRatio
  | setLockBypass (b : Bool)
  | setWakeUpFast (b : Bool)
  | setOnDemand (b : Bool)
  | enableBit
  | waitEnableSync
deriving DecidableEq

/-- Embeds `Enabled<Dpll<D, I>, N = U0>` (dpll.rs, line 571): the frozen `Dpll`
behind the enabled wrapper. -/
structure EnabledDpll where
  toDpll : Dpll
deriving DecidableEq

/-- Embeds `DpllToken::set_loop_div` LDR value (dpll.rs, lines 222-228):
`(int - 1) & 0x1FFF` with wrapping `u16` subtraction. -/
def ldrValue (mult : Nat) : Nat := ((mult + 65535) % 65536) % 8192

/-- Embeds `DpllToken::set_loop_div` LDRFRAC value: `frac & 0x1F`. -/
def ldrfracValue (frac : Nat) : Nat := frac % 32

/-- Register-write sequence of a successful `Dpll::enable` (dpll.rs, lines
548-560): source select, then — for the `Xosc0`/`Xosc1` variants only — the
pre-divider field `prediv / 2 - 1` masked to 10 bits, then loop ratio with
its ratio-synchronization wait, the three flags, the enable bit, and the
enable-synchronization wait. -/
def Dpll.enableOps (d : Dpll) : List DpllRegOp :=
  [.setSourceClock d.source]
  ++ (match d.source with
      | .Xosc0 => [.setSourceDiv ((d.prediv / 2 - 1) % 1024)]
      | .Xosc1 => [.setSourceDiv ((d.prediv / 2 - 1) % 1024)]
      | _ => [])
  ++ [.setLoopDiv (ldrValue d.mult) (ldrfracValue d.frac), .waitSyncRatio,
      .setLockBypass d.lock_bypass, .setWakeUpFast d.wake_up_fast,
      .setOnDemand d.on_demand, .enableBit, .waitEnableSync]

/-- Embeds `Dpll::enable` (dpll.rs, lines 541-562): both range checks precede every
register write; a failed check panics (here `none`), producing no register
writes and no enabled node.  On success it performs `enableOps` and wraps the
unchanged `Dpll` in `Enabled` with counter `U0`. -/
def Dpll.enable (d : Dpll) : Option (List DpllRegOp × EnabledDpll) :=
  if 32000 ≤ d.input_freq ∧ d.input_freq ≤ 3200000 then
    if 96000000 ≤ d.output_freq ∧ d.output_freq ≤ 200000000 then
      some (d.enableOps, ⟨d⟩)
    else none
  else none

/-- Embeds `EnabledDpll::disable` (dpll.rs, lines 577-588): returns the inner
`Dpll` (defined only at counter `U0`). -/
def EnabledDpll.disable (e : EnabledDpll) : Dpll := e.toDpll

/-- Embeds `Source::freq` for `EnabledDpll` (dpll.rs, lines 613-625): reports
`output_freq` computed live. -/
def EnabledDpll.sourceFreq (e : EnabledDpll) : Nat := e.toDpll.output_freq

/-- C5: after `set_divider(d)`, `freq()` equals the source frequency divided
by the effective divisor of `d`: `Direct(n)` divides by `max n 1` (0 and 1
both mean no division), `Div2Pow8` by 256, `Div2Pow9` by 512, and on
generator 1 `Div2Pow16` by 65536 and `Div2Pow17` by 131072. -/
theorem c5_freq_after_set_divider (c : GclkConfig) (n : Nat) :
    (c.setDiv (.Div n)).freq = c.srcFreq / Nat.max n 1 ∧
    (c.setDiv .Div2Pow8).freq = c.srcFreq / 256 ∧
    (c.setDiv .Div2Pow9).freq = c.srcFreq / 512 ∧
    (c.setDiv1 (.Div n)).freq = c.srcFreq / Nat.max n 1 ∧
    (c.setDiv1 .Div2Pow16).freq = c.srcFreq / 65536 ∧
    (c.setDiv1 .Div2Pow17).freq = c.srcFreq / 131072 ∧
    (c.setDiv (.Div 0)).freq = c.srcFreq ∧
    (c.setDiv (.Div 1)).freq = c.srcFreq := by
  have hdiv : ∀ m : Nat,
      GclkConfig.freq { c with div := m } = c.srcFreq / Nat.max m 1 := by
    intro m
    cases m with
    | zero => simp [GclkConfig.freq]
    | succ k =>
      have hmax : Nat.max (k + 1) 1 = k + 1 := Nat.max_eq_left (Nat.succ_le_succ (Nat.zero_le k))
      simp [GclkConfig.freq, hmax]
  refine ⟨hdiv n, ?_, ?_, hdiv n, ?_, ?_, ?_, ?_⟩ <;>
    simp [GclkConfig.setDiv, GclkConfig.setDiv1, GclkDiv.as_u32, Gclk1Div.as_u32,
      GclkConfig.freq, hdiv]

/-- C6: `set_div` writes `DIVSEL = DIV1` with field value `n` for `Div(n)`;
for the power-of-two variants it sets `DIVSEL = DIV2` and writes `k - 1`
into the field (7 for `Div2Pow8`, 8 for `Div2Pow9` on the non-generator-1
units; 15 for `Div2Pow16`, 16 for `Div2Pow17` on generator 1), and the
effect trace ends with a busy-wait on this unit's GENCTRL synchronization
bit `1 <<< gen`. -/
theorem c6_set_div_register_encoding (n gen : Nat) (r : Genctrl) :
    r.applyDiv (setDivNotGen1 (.Div n)) = { r with divsel := .div1, divField := n } ∧
    r.applyDiv (setDivNotGen1 .Div2Pow8) = { r with divsel := .div2, divField := 7 } ∧
    r.applyDiv (setDivNotGen1 .Div2Pow9) = { r with divsel := .div2, divField := 8 } ∧
    r.applyDiv (setDivGen1 (.Div n)) = { r with divsel := .div1, divField := n } ∧
    r.applyDiv (setDivGen1 .Div2Pow16) = { r with divsel := .div2, divField := 15 } ∧
    r.applyDiv (setDivGen1 .Div2Pow17) = { r with divsel := .div2, divField := 16 } ∧
    (∀ d : GclkDiv, setDivOpsNotGen1 gen d =
      [.genctrlDiv gen (setDivNotGen1 d), .waitSyncbusyGenctrl (1 <<< gen)]) ∧
    (∀ d : Gclk1Div, setDivOpsGen1 d =
      [.genctrlDiv 1 (setDivGen1 d), .waitSyncbusyGenctrl 2]) := by
  refine ⟨rfl, rfl, rfl, rfl, rfl, rfl, fun d => rfl, fun d => rfl⟩

/-- C2 (code evaluation): for source frequency 32000 Hz, prediv 1,
mult 3000, frac 24, the code's `output_freq` is 96 000 000 Hz — not the
96 024 000 Hz the claim (and the `set_loop_div` doc example in dpll.rs)
states — because the integer division `frac / 32 = 24 / 32` contributes 0.
`enable()` succeeds on this configuration. -/
theorem c2_loop_ratio_frac_truncated :
    ((Dpll.from_xosc32k 32000).set_loop_div 3000 24).output_freq = 96000000 ∧
    ((Dpll.from_xosc32k 32000).set_loop_div 3000 24).output_freq ≠ 96024000 ∧
    (((Dpll.from_xosc32k 32000).set_loop_div 3000 24).enable).isSome = true := by
  refine ⟨by decide, by decide, by decide⟩

/-- C4: `Dpll::enable` fails exactly when `input_freq = src_freq / prediv`
lies outside [32000, 3200000] or `output_freq` lies outside
[96000000, 200000000]; on failure no register effects are emitted and no
enabled node is produced (`none`), and on success the register-write trace
is `enableOps` and the enabled node wraps the unchanged configuration. -/
theorem c4_enable_range_validation (d : Dpll) :
    (d.enable = none ↔
      ¬(32000 ≤ d.input_freq ∧ d.input_freq ≤ 3200000 ∧
        96000000 ≤ d.output_freq ∧ d.output_freq ≤ 200000000)) ∧
    (∀ ops e, d.enable = some (ops, e) → ops = d.enableOps ∧ e.toDpll = d) := by
  constructor
  · unfold Dpll.enable
    split
    · split
      · simp only [reduceCtorEq, false_iff]
        tauto
      · simp only [true_iff]
        tauto
    · simp only [true_iff]
      tauto
  · intro ops e h
    unfold Dpll.enable at h
    split at h
    · split at h
      · rw [Option.some.injEq, Prod.mk.injEq] at h
        exact ⟨h.1.symm, by rw [← h.2]⟩
      · exact absurd h (by simp)
    · exact absurd h (by simp)

/-- C7: on an external-oscillator-driven DPLL the pre-divider defaults to 2;
`set_prediv p` fails for every `p` that is odd or outside [2, 4096], and for
every even `p` in [2, 4096] it returns the configuration with `prediv = p`. -/
theorem c7_set_prediv_validation (f p : Nat) (d : Dpll) :
    (Dpll.from_xosc0 f).prediv = 2 ∧ (Dpll.from_xosc1 f).prediv = 2 ∧
    (p % 2 = 1 ∨ p < 2 ∨ 4096 < p → d.set_prediv p = none) ∧
    (p % 2 = 0 → 2 ≤ p → p ≤ 4096 →
      d.set_prediv p = some { d with prediv := p }) := by
  refine ⟨rfl, rfl, ?_, ?_⟩
  · intro h
    unfold Dpll.set_prediv
    split
    · rfl
    · omega
  · intro h1 h2 h3
    unfold Dpll.set_prediv
    split
    · omega
    · rfl

/-- C7 witness: `set_prediv 10` on a DPLL driven by external oscillator 0
succeeds with pre-divider 10. -/
theorem c7_set_prediv_validation_witness :
    (Dpll.from_xosc0 8000000).set_prediv 10 =
      some { Dpll.from_xosc0 8000000 with prediv := 10 } :=
  (c7_set_prediv_validation 8000000 10 (Dpll.from_xosc0 8000000)).2.2.2
    (by decide) (by decide) (by decide)

/-- C1: while an active generator's reference count is positive, `disable`
is rejected; `lock` and `unlock` are the only safe-API operations changing
the count, by exactly +1 and −1; after `lock` followed by the matching
`unlock`, `disable` succeeds and returns the inner config. -/
theorem c1_refcount_discipline (g : Gclk) :
    (0 < g.count → g.disable = none) ∧
    g.lock.count = g.count + 1 ∧
    (∀ g2, g.unlock = some g2 → g2.count = g.count - 1) ∧
    (∀ op g2, step (.active g) op = some (.active g2) → g2.count ≠ g.count →
      (op = .lock ∧ g2.count = g.count + 1) ∨
      (op = .unlock ∧ g2.count = g.count - 1)) ∧
    (g.count = 0 → g.config.gen ≠ 0 →
      g.lock.unlock = some g ∧ g.disable = some g.config) := by
  refine ⟨?_, rfl, ?_, ?_, ?_⟩
  · intro h
    unfold Gclk.disable
    exact if_neg (fun hc => by omega)
  · intro g2 h
    unfold Gclk.unlock at h
    split at h
    · injection h with h
      rw [← h]
    · exact absurd h (by simp)
  · intro op g2 h hne
    cases op with
    | enable => exact absurd h (by simp [step])
    | setDiv d => exact absurd h (by simp [step])
    | improveDuty b => exact absurd h (by simp [step])
    | disable =>
      exfalso
      replace h : Option.map GclkState.config g.disable =
          some (.active g2) := h
      cases hd : g.disable with
      | none => rw [hd] at h; simp at h
      | some c => rw [hd] at h; simp at h
    | lock =>
      replace h : some (GclkState.active g.lock) = some (.active g2) := h
      rw [Option.some.injEq] at h
      injection h with h
      exact Or.inl ⟨rfl, by rw [← h]; rfl⟩
    | unlock =>
      replace h : Option.map GclkState.active g.unlock =
          some (.active g2) := h
      cases hu : g.unlock with
      | none => rw [hu] at h; simp at h
      | some g3 =>
        rw [hu] at h
        replace h : some (GclkState.active g3) = some (.active g2) := h
        rw [Option.some.injEq] at h
        injection h with h
        refine Or.inr ⟨rfl, ?_⟩
        unfold Gclk.unlock at hu
        split at hu
        · injection hu with hu
          rw [← h, ← hu]
        · exact absurd hu (by simp)
    | enableOut pol =>
      exfalso
      replace h : some (GclkState.active g) = some (.active g2) := h
      rw [Option.some.injEq] at h
      injection h with h
      exact hne (by rw [← h])
    | disableOut =>
      exfalso
      replace h : some (GclkState.active g) = some (.active g2) := h
      rw [Option.some.injEq] at h
      injection h with h
      exact hne (by rw [← h])
  · intro h0 hg
    constructor
    · show Gclk.unlock ⟨g.config, g.count + 1⟩ = some g
      unfold Gclk.unlock
      rw [if_pos (Nat.succ_pos g.count)]
      rfl
    · unfold Gclk.disable
      rw [if_pos ⟨hg, h0⟩]

/-- C1 witness: on generator 2 with count 1 `disable` is rejected; with
count 0, `lock` then `unlock` restores the node and `disable` then returns
the config. -/
theorem c1_refcount_discipline_witness :
    Gclk.disable ⟨⟨2, 0, 48000000, 1⟩, 1⟩ = none ∧
    Gclk.unlock (Gclk.lock ⟨⟨2, 0, 48000000, 1⟩, 0⟩) =
      some ⟨⟨2, 0, 48000000, 1⟩, 0⟩ ∧
    Gclk.disable ⟨⟨2, 0, 48000000, 1⟩, 0⟩ = some ⟨2, 0, 48000000, 1⟩ :=
  ⟨(c1_refcount_discipline ⟨⟨2, 0, 48000000, 1⟩, 1⟩).1 (by decide),
   ((c1_refcount_discipline ⟨⟨2, 0, 48000000, 1⟩, 0⟩).2.2.2.2 (by decide)
      (by decide)).1,
   ((c1_refcount_discipline ⟨⟨2, 0, 48000000, 1⟩, 0⟩).2.2.2.2 (by decide)
      (by decide)).2⟩

/-- C8: `enable()` immediately followed by `disable()` on a config for a
generator other than 0 returns the very config that was consumed, and at
the register level enable-then-disable restores a GENCTRL register whose
`GENEN` bit was clear, leaving source, divider and flag fields untouched. -/
theorem c8_enable_disable_roundtrip (c : GclkConfig) (r : Genctrl)
    (hg : c.gen ≠ 0) (hr : r.genen = false) :
    c.enable.disable = some c ∧ r.applyEnable.applyDisable = r := by
  constructor
  · unfold GclkConfig.enable Gclk.disable
    rw [if_pos ⟨hg, rfl⟩]
  · unfold Genctrl.applyEnable Genctrl.applyDisable
    cases r
    dsimp at hr ⊢
    rw [hr]

/-- C8 witness: round trip at a concrete config and register state. -/
theorem c8_enable_disable_roundtrip_witness :
    (GclkConfig.enable ⟨2, 3, 8000000, 4⟩).disable =
      some ⟨2, 3, 8000000, 4⟩ ∧
    Genctrl.applyDisable
        (Genctrl.applyEnable ⟨3, .div1, 4, true, false, false, true⟩) =
      ⟨3, .div1, 4, true, false, false, true⟩ :=
  c8_enable_disable_roundtrip ⟨2, 3, 8000000, 4⟩
    ⟨3, .div1, 4, true, false, false, true⟩ (by decide) rfl

/-- C9: `output_freq` is the `u32` product of the truncated input frequency
and `mult + frac / 32` (integer division, so `frac < 32` contributes
nothing), reduced modulo `2 ^ 32`; `enable`'s output-range validation and
the frequency reported through the `Source` capability both use this
truncated, possibly wrapped value. -/
theorem c9_output_freq_wraps (d : Dpll) :
    d.output_freq = (d.src_freq / d.prediv) * (d.mult + d.frac / 32) % 2 ^ 32 ∧
    (d.frac < 32 → d.output_freq = d.src_freq / d.prediv * d.mult % 2 ^ 32) ∧
    (∀ ops e, d.enable = some (ops, e) →
      96000000 ≤ d.output_freq ∧ d.output_freq ≤ 200000000 ∧
      e.sourceFreq = d.output_freq) := by
  refine ⟨rfl, ?_, ?_⟩
  · intro h
    unfold Dpll.output_freq
    rw [Nat.div_eq_of_lt h, Nat.add_zero]
    rfl
  · intro ops e h
    unfold Dpll.enable at h
    split at h
    · split at h
      · rename_i h2
        rw [Option.some.injEq, Prod.mk.injEq] at h
        exact ⟨h2.1, h2.2, by rw [← h.2]; rfl⟩
      · exact absurd h (by simp)
    · exact absurd h (by simp)

/-- C9 witness: at input 3.2 MHz and mult 2000 the exact product 6.4e9
exceeds `2 ^ 32 - 1` and the computed value wraps to 2105032704; on a valid
configuration the `Source` capability reports the computed value. -/
theorem c9_output_freq_wraps_witness :
    Dpll.output_freq ⟨.Pclk, 3200000, 2000, 0, false, false, true, 1⟩ =
      3200000 / 1 * 2000 % 2 ^ 32 ∧
    (4294967295 : Nat) < 3200000 * 2000 ∧
    Dpll.output_freq ⟨.Pclk, 3200000, 2000, 0, false, false, true, 1⟩ =
      2105032704 ∧
    EnabledDpll.sourceFreq ⟨(Dpll.from_pclk 2000000).set_loop_div 50 0⟩ =
      ((Dpll.from_pclk 2000000).set_loop_div 50 0).output_freq :=
  ⟨(c9_output_freq_wraps ⟨.Pclk, 3200000, 2000, 0, false, false, true, 1⟩).2.1
      (by decide),
   by norm_num,
   by decide,
   ((c9_output_freq_wraps ((Dpll.from_pclk 2000000).set_loop_div 50 0)).2.2
      ((Dpll.from_pclk 2000000).set_loop_div 50 0).enableOps
      ⟨(Dpll.from_pclk 2000000).set_loop_div 50 0⟩ (by decide)).2.2⟩

/-- One safe-API step from an active generator-0 node leads only to an
active generator-0 node: `disable` requires `NotGen0`. -/
theorem stepActiveGen0 (g : Gclk) (op : GclkOp) (s2 : GclkState)
    (hg : g.config.gen = 0) (h : step (.active g) op = some s2) :
    ∃ g2, s2 = .active g2 ∧ g2.config.gen = 0 := by
  cases op with
  | enable => exact absurd h (by simp [step])
  | setDiv d => exact absurd h (by simp [step])
  | improveDuty b => exact absurd h (by simp [step])
  | disable =>
    exfalso
    replace h : Option.map GclkState.config g.disable = some s2 := h
    unfold Gclk.disable at h
    rw [if_neg (fun hc => hc.1 hg)] at h
    simp at h
  | lock =>
    replace h : some (GclkState.active g.lock) = some s2 := h
    rw [Option.some.injEq] at h
    exact ⟨g.lock, h.symm, hg⟩
  | unlock =>
    replace h : Option.map GclkState.active g.unlock = some s2 := h
    cases hu : g.unlock with
    | none => rw [hu] at h; simp at h
    | some g3 =>
      rw [hu] at h
      replace h : some (GclkState.active g3) = some s2 := h
      rw [Option.some.injEq] at h
      refine ⟨g3, h.symm, ?_⟩
      unfold Gclk.unlock at hu
      split at hu
      · injection hu with hu
        rw [← hu]
        exact hg
      · exact absurd hu (by simp)
  | enableOut pol =>
    replace h : some (GclkState.active g) = some s2 := h
    rw [Option.some.injEq] at h
    exact ⟨g, h.symm, hg⟩
  | disableOut =>
    replace h : some (GclkState.active g) = some s2 := h
    rw [Option.some.injEq] at h
    exact ⟨g, h.symm, hg⟩

/-- Iterated form of `stepActiveGen0` over any operation list. -/
theorem runActiveGen0 (ops : List GclkOp) :
    ∀ (g : Gclk) (s2 : GclkState), g.config.gen = 0 →
      run (.active g) ops = some s2 →
      ∃ g2, s2 = .active g2 ∧ g2.config.gen = 0 := by
  induction ops with
  | nil =>
    intro g s2 hg h
    unfold run at h
    rw [Option.some.injEq] at h
    exact ⟨g, h.symm, hg⟩
  | cons op ops ih =>
    intro g s2 hg h
    unfold run at h
    cases hs : step (.active g) op with
    | none => rw [hs] at h; simp at h
    | some s3 =>
      rw [hs] at h
      obtain ⟨g3, hs3, hg3⟩ := stepActiveGen0 g op s3 hg hs
      subst hs3
      exact ih g3 s2 hg3 h

/-- C10: generator 0 can never be disabled through the safe API — every
sequence of safe operations leaves it in the active state — while a
generator other than 0 with reference count zero is returned to the config
state by `disable`. -/
theorem c10_gen0_always_active :
    (∀ (ops : List GclkOp) (g : Gclk) (s2 : GclkState), g.config.gen = 0 →
      run (.active g) ops = some s2 →
      ∃ g2, s2 = .active g2 ∧ g2.config.gen = 0) ∧
    (∀ g : Gclk, g.config.gen ≠ 0 → g.count = 0 →
      g.disable = some g.config) := by
  constructor
  · exact runActiveGen0
  · intro g hg h0
    unfold Gclk.disable
    rw [if_pos ⟨hg, h0⟩]

/-- C10 witness: a lock/output-toggle/unlock sequence keeps generator 0
active; generator 3 at count zero disables back to its config. -/
theorem c10_gen0_always_active_witness :
    (∃ g2, (GclkState.active ⟨⟨0, 0, 120000000, 1⟩, 1⟩ : GclkState) =
        .active g2 ∧ g2.config.gen = 0) ∧
    Gclk.disable ⟨⟨3, 0, 1000, 1⟩, 0⟩ = some ⟨3, 0, 1000, 1⟩ :=
  ⟨c10_gen0_always_active.1 [.lock, .enableOut true, .unlock]
      ⟨⟨0, 0, 120000000, 1⟩, 1⟩ (.active ⟨⟨0, 0, 120000000, 1⟩, 1⟩) rfl
      (by decide),
   c10_gen0_always_active.2 ⟨⟨3, 0, 1000, 1⟩, 0⟩ (by decide) rfl⟩

/-- C3 counterexample: a config with divider 256 swapped to an
equal-frequency new source comes back with divider 1, so neither the divider
setting nor the reported frequency is unchanged by the swap, contrary to the
claim. -/
theorem c3_swap_counterexample :
    GclkConfig.swap ⟨2, 3, 48000000, 256⟩ ⟨3, 48000000, 1⟩ ⟨7, 48000000, 0⟩
        ⟨3, .div1, 0, false, false, false, false⟩ =
      some (⟨2, 7, 48000000, 1⟩, ⟨3, 48000000, 0⟩, ⟨7, 48000000, 1⟩,
        ⟨7, .div1, 0, false, false, false, false⟩) ∧
    (⟨2, 7, 48000000, 1⟩ : GclkConfig).div ≠
      (⟨2, 3, 48000000, 256⟩ : GclkConfig).div ∧
    (⟨2, 7, 48000000, 1⟩ : GclkConfig).freq ≠
      (⟨2, 3, 48000000, 256⟩ : GclkConfig).freq :=
  ⟨by decide, by decide, by decide⟩

/-- C3 amended: `swap(old, new)` unlocks the old source (count −1), locks
the new source (count +1), rewrites only the source-select register field,
and returns the updated config for the new source with its stored divider
reset to 1 — so the reported frequency is the new source frequency
undivided. -/
theorem c3_swap_amended (c : GclkConfig) (sold snew : SourceM) (r : Genctrl)
    (h : 0 < sold.count) :
    GclkConfig.swap c sold snew r =
      some (⟨c.gen, snew.id, snew.freq, 1⟩,
        ⟨sold.id, sold.freq, sold.count - 1⟩, snew.lock, r.applySrc snew.id) ∧
    (∀ c2 o n r2, GclkConfig.swap c sold snew r = some (c2, o, n, r2) →
      c2.freq = snew.freq ∧ n.count = snew.count + 1 ∧
      o.count = sold.count - 1 ∧ r2.divsel = r.divsel ∧
      r2.divField = r.divField ∧ r2.idc = r.idc ∧ r2.genen = r.genen ∧
      r2.oe = r.oe ∧ r2.oov = r.oov) := by
  have h1 : sold.unlock = some ⟨sold.id, sold.freq, sold.count - 1⟩ := by
    unfold SourceM.unlock
    rw [if_pos h]
  have heq : GclkConfig.swap c sold snew r =
      some (⟨c.gen, snew.id, snew.freq, 1⟩,
        ⟨sold.id, sold.freq, sold.count - 1⟩, snew.lock,
        r.applySrc snew.id) := by
    unfold GclkConfig.swap GclkConfig.free
    rw [h1]
    rfl
  refine ⟨heq, ?_⟩
  intro c2 o n r2 hsw
  rw [heq, Option.some.injEq, Prod.mk.injEq, Prod.mk.injEq, Prod.mk.injEq]
    at hsw
  obtain ⟨e1, e2, e3, e4⟩ := hsw
  subst e1
  subst e2
  subst e3
  subst e4
  exact ⟨Nat.div_one snew.freq, rfl, rfl, rfl, rfl, rfl, rfl, rfl, rfl⟩

/-- C3 amended witness: swap at a concrete config, sources and register. -/
theorem c3_swap_amended_witness :
    GclkConfig.swap ⟨4, 1, 8000000, 2⟩ ⟨1, 8000000, 1⟩ ⟨5, 12000000, 3⟩
        ⟨1, .div2, 7, true, true, false, false⟩ =
      some (⟨4, 5, 12000000, 1⟩, ⟨1, 8000000, 0⟩, ⟨5, 12000000, 4⟩,
        ⟨5, .div2, 7, true, true, false, false⟩) :=
  (c3_swap_amended ⟨4, 1, 8000000, 2⟩ ⟨1, 8000000, 1⟩ ⟨5, 12000000, 3⟩
    ⟨1, .div2, 7, true, true, false, false⟩ (by decide)).1

/-- C4 witness: a pclk-driven DPLL at 48 MHz input fails `enable`; the
2 MHz × 50 configuration succeeds, producing a node wrapping it. -/
theorem c4_enable_range_validation_witness :
    (Dpll.from_pclk 48000000).enable = none ∧
    (⟨(Dpll.from_pclk 2000000).set_loop_div 50 0⟩ : EnabledDpll).toDpll =
      (Dpll.from_pclk 2000000).set_loop_div 50 0 :=
  ⟨(c4_enable_range_validation (Dpll.from_pclk 48000000)).1.mpr (by decide),
   ((c4_enable_range_validation
      ((Dpll.from_pclk 2000000).set_loop_div 50 0)).2
      ((Dpll.from_pclk 2000000).set_loop_div 50 0).enableOps
      ⟨(Dpll.from_pclk 2000000).set_loop_div 50 0⟩ (by decide)).2⟩

end Atsamd
